import Mathlib

/-!
A shallow embedding of the Frame desktop-shell module (window/view factory,
external-link allow-list gate, and block-explorer URL resolution) together
with the Dapps view-composition component, and proofs of the specified
properties.

JavaScript string-or-undefined values are modelled by `JSVal`; truthiness,
short-circuit `&&` / `||`, and template-literal coercion follow the
JavaScript semantics the source relies on.  Asynchronous exceptions are
modelled by the `Except String` monad (an `await` that can reject is a
bind), and observable side effects (HEAD probes, console logging, and
`shell.openExternal` calls) are accumulated in an explicit effect list.
-/

/-- A JavaScript value that is either `undefined` or a string. -/
inductive JSVal where
  | undef : JSVal
  | str : String → JSVal
deriving DecidableEq, Repr

/-- JavaScript truthiness for `JSVal`: `undefined` and the empty string are falsy. -/
def JSVal.truthy : JSVal → Bool
  | JSVal.undef => false
  | JSVal.str s => s ≠ ""

/-- Template-literal coercion: `undefined` prints as `"undefined"`. -/
def JSVal.toStr : JSVal → String
  | JSVal.undef => "undefined"
  | JSVal.str s => s

/-- JavaScript `a || b` (value-returning short-circuit or). -/
def jsOr (a b : JSVal) : JSVal :=
  if a.truthy then a else b

/-- JavaScript `a && b` (value-returning short-circuit and). -/
def jsAnd (a b : JSVal) : JSVal :=
  if a.truthy then b else a

/-- Observable side effects of the shell module: an HTTP HEAD probe, a
console/log line, or a `shell.openExternal` call. -/
inductive Effect where
  | head : String → Effect
  | log : String → Effect
  | openExt : String → Effect
deriving DecidableEq, Repr

/-- The fixed external-link allow-list (`externalWhitelist` in the source). -/
def externalWhitelist : List String :=
  [ "https://frame.sh",
    "https://chrome.google.com/webstore/detail/frame-alpha/ldcoohedfbjoobcadoglnnmmfbdlmmhf",
    "https://addons.mozilla.org/en-US/firefox/addon/frame-extension",
    "https://github.com/floating/frame/issues/new",
    "https://github.com/floating/frame/blob/master/LICENSE",
    "https://github.com/floating/frame/blob/0.5/LICENSE",
    "https://shop.ledger.com/pages/ledger-nano-x?r=1fb484cde64f",
    "https://shop.trezor.io/?offer_id=10&aff_id=3270",
    "https://discord.gg/UH7NGqY",
    "https://frame.canny.io",
    "https://feedback.frame.sh",
    "https://wiki.trezor.io/Trezor_Bridge",
    "https://opensea.io" ]

/-- `isValidReleasePage` from the source: the two release-tag URL patterns. -/
def isValidReleasePage (url : String) : Bool :=
  url.startsWith "https://github.com/floating/frame/releases/tag" ||
  url.startsWith "https://github.com/frame-labs/frame-canary/releases/tag"

/-- `isWhitelistedHost` from the source: exact match against an allow-list
entry, or an allow-list entry followed by `/` at the start of the URL. -/
def isWhitelistedHost (url : String) : Bool :=
  externalWhitelist.any (fun entry => url = entry || url.startsWith (entry ++ "/"))

/-- `openExternal` from the source: invoke `shell.openExternal` only when the
URL passes the allow-list gate or the release-page pattern; otherwise do
nothing.  The returned list records the external-open calls performed. -/
def openExternal (url : String) : List Effect :=
  if isWhitelistedHost url || isValidReleasePage url then
    [Effect.openExt url]
  else
    []

/-! ## Window and view factory -/

/-- Caller-supplied `webPreferences`: each key may be present (overriding) or
absent.  Only the keys relevant to the security posture are tracked; the
construction below re-asserts the mandatory keys after spreading these. -/
structure WebPreferencesIn where
  contextIsolation : Option Bool := none
  webviewTag : Option Bool := none
  sandbox : Option Bool := none
  nodeIntegration : Option Bool := none
  scrollBounce : Option Bool := none
  backgroundThrottling : Option Bool := none
  preload : Option String := none
  extras : List (String × Bool) := []
deriving DecidableEq, Repr

/-- The effective `webPreferences` of a constructed browsing surface.
`backgroundThrottling` stays optional: only `createWindow` writes it, so in
the two view factories the caller-supplied value (or platform default)
survives the spread. -/
structure WebPreferences where
  contextIsolation : Bool
  webviewTag : Bool
  sandbox : Bool
  nodeIntegration : Bool
  scrollBounce : Bool
  backgroundThrottling : Option Bool
  navigateOnDragDrop : Bool
  disableBlinkFeatures : String
  defaultEncoding : String
  preload : String
  partition : Option String
  extras : List (String × Bool)
deriving DecidableEq, Repr

/-- The answer of a `setWindowOpenHandler` callback (`{ action: ... }`). -/
inductive WindowOpenAction where
  | allow : WindowOpenAction
  | deny : WindowOpenAction
deriving DecidableEq, Repr

/-- A navigation-style event; `preventDefault()` sets the flag. -/
structure NavEvent where
  defaultPrevented : Bool
deriving DecidableEq, Repr

/-- The handlers registered on the `webContents` of a constructed surface. -/
structure WebContentsHandlers where
  willNavigate : NavEvent → NavEvent
  willAttachWebview : NavEvent → NavEvent
  windowOpenHandler : Unit → WindowOpenAction

/-- A constructed browsing surface (window, view, or overlay). -/
structure BrowsingSurface where
  webPreferences : WebPreferences
  handlers : WebContentsHandlers

/-- Models the Node `path.resolve(base, file)` call for the preload paths. -/
def pathResolve (base file : String) : String :=
  base ++ "/" ++ file

/-- `createWindow` from the source: spreads the caller `webPreferences`
and then re-asserts the mandatory security keys, and registers the three
navigation-blocking handlers. -/
def createWindow (name : String) (bundleLocation : String)
    (webPreferences : WebPreferencesIn) : BrowsingSurface :=
  let _ := name
  { webPreferences :=
      { contextIsolation := true
        webviewTag := false
        sandbox := true
        nodeIntegration := false
        scrollBounce := true
        backgroundThrottling := some false
        navigateOnDragDrop := false
        disableBlinkFeatures := "Auxclick"
        defaultEncoding := "utf-8"
        preload := pathResolve bundleLocation "bridge.js"
        partition := none
        extras := webPreferences.extras }
    handlers :=
      { willNavigate := fun e => { e with defaultPrevented := true }
        willAttachWebview := fun e => { e with defaultPrevented := true }
        windowOpenHandler := fun _ => WindowOpenAction.deny } }

/-- `createViewInstance` from the source. -/
def createViewInstance (ens : String)
    (webPreferences : WebPreferencesIn) : BrowsingSurface :=
  { webPreferences :=
      { contextIsolation := true
        webviewTag := false
        sandbox := true
        nodeIntegration := false
        scrollBounce := false
        backgroundThrottling := webPreferences.backgroundThrottling
        navigateOnDragDrop := false
        disableBlinkFeatures := "Auxclick"
        defaultEncoding := "utf-8"
        preload := pathResolve "./main/windows" "viewPreload.js"
        partition := some ("persist:" ++ ens)
        extras := webPreferences.extras }
    handlers :=
      { willNavigate := fun e => { e with defaultPrevented := true }
        willAttachWebview := fun e => { e with defaultPrevented := true }
        windowOpenHandler := fun _ => WindowOpenAction.deny } }

/-! ## Block-explorer URL resolution -/

/-- The part of a `fetch` HEAD response the source inspects. -/
structure FetchResponse where
  redirected : Bool
  ok : Bool
deriving DecidableEq, Repr

/-- The network oracle: a HEAD request (redirects disabled) to a URL either
yields a response or rejects with an error message. -/
def Fetch : Type :=
  String → Except String FetchResponse

/-- `urlExists` from the source: `try { const response = await fetch(url,
{ method: HEAD, redirect: manual }); return !response.redirected &&
response.ok } catch (error) { console.log(error); return false }`.
The effect list records the HEAD probe and, on rejection, the console log. -/
def urlExists (fetch : Fetch) (url : String) : Except String (Bool × List Effect) :=
  match fetch url with
  | Except.ok response => Except.ok (!response.redirected && response.ok, [Effect.head url])
  | Except.error e => Except.ok (false, [Effect.head url, Effect.log e])

/-- The boolean verdict of `urlExists` (its catch clause makes it total). -/
def urlExistsBool (fetch : Fetch) (url : String) : Bool :=
  match fetch url with
  | Except.ok response => !response.redirected && response.ok
  | Except.error _ => false

/-- The effects `urlExists` performs: the HEAD probe, plus the console log
of the error when the probe rejects. -/
def urlExistsEffs (fetch : Fetch) (url : String) : List Effect :=
  match fetch url with
  | Except.ok _ => [Effect.head url]
  | Except.error e => [Effect.head url, Effect.log e]

/-- `getTokenUrl` from the source: with a falsy `tokenId` return the token
path at once; otherwise probe the NFT path and the token path and return the
first candidate (NFT first) that exists, falling back to the address path. -/
def getTokenUrl (fetch : Fetch) (explorer address : String) (tokenId : JSVal) :
    Except String (String × List Effect) :=
  let tokenPath := explorer ++ "/token/" ++ address
  let nftPath := explorer ++ "/nft/" ++ address ++ "/" ++ tokenId.toStr
  if tokenId.truthy = false then Except.ok (tokenPath, [])
  else
    let urls := [nftPath, tokenPath]
    match urls.mapM (urlExists fetch) with
    | Except.error e => Except.error e
    | Except.ok results =>
      let urlExistenceList := results.map Prod.fst
      let effs := (results.map Prod.snd).flatten
      match urlExistenceList.findIdx? (fun b => b) with
      | some existingUrlIndex => Except.ok (urls.getD existingUrlIndex "", effs)
      | none => Except.ok (explorer ++ "/address/" ++ address, effs)

/-- The trailing-slash normalisation in `openBlockExplorer`: the regex
replace drops every trailing slash character from the base URL. -/
def stripTrailingSlashes (s : String) : String :=
  String.mk ((s.data.reverse.dropWhile (fun c => c = '/')).reverse)

/-- The chain reference of an explorer request. -/
structure Chain where
  id : Nat
  type : String
deriving DecidableEq, Repr

/-- The action tag of an explorer request. -/
inductive ExplorerType where
  | tx : ExplorerType
  | address : ExplorerType
  | token : ExplorerType
deriving DecidableEq, Repr

/-- The `OpenExplorer` request shape from the source; the optional string
fields are JavaScript values (possibly `undefined` or empty). -/
structure OpenExplorer where
  chain : Chain
  type : ExplorerType
  hash : JSVal
  address : JSVal
  tokenId : JSVal
deriving DecidableEq, Repr

/-- The configuration store lookup `store(main.networks, chainType, chainId,
explorer)`, which may be undefined. -/
def StoreNetworks : Type :=
  String → Nat → JSVal

/-- The explorer lookup and normalisation at the top of `openBlockExplorer`:
read the configured base URL, default to the empty string, and strip
trailing slashes. -/
def explorerBase (storeNet : StoreNetworks) (o : OpenExplorer) : String :=
  stripTrailingSlashes (jsOr (storeNet o.chain.type o.chain.id) (JSVal.str "")).toStr

/-- The `urlFormats` dispatch inside `openBlockExplorer`: per request type,
the resolved URL as a JavaScript value (`hash && ...` and `address && ...`
are value-returning short-circuits, so a missing field yields a falsy
result), together with the probe effects performed along the way. -/
def urlFormats (fetch : Fetch) (explorer : String)
    (o : OpenExplorer) : Except String (JSVal × List Effect) :=
  match o.type with
  | ExplorerType.tx =>
    Except.ok (jsAnd o.hash (JSVal.str (explorer ++ "/tx/" ++ o.hash.toStr)), [])
  | ExplorerType.token =>
    if o.address.truthy then
      match getTokenUrl fetch explorer o.address.toStr o.tokenId with
      | Except.error e => Except.error e
      | Except.ok (u, effs) => Except.ok (JSVal.str u, effs)
    else Except.ok (o.address, [])
  | ExplorerType.address =>
    Except.ok (jsAnd o.address (JSVal.str (explorer ++ "/address/" ++ o.address.toStr)), [])

/-- `openBlockExplorer` from the source: look up and normalise the explorer
base URL, bail out silently when it is empty, dispatch through `urlFormats`,
and open the resolved URL — or the bare base URL when the dispatch produced
a falsy value — via `shell.openExternal`. -/
def openBlockExplorer (storeNet : StoreNetworks) (fetch : Fetch)
    (o : OpenExplorer) : Except String (List Effect) :=
  let explorer := explorerBase storeNet o
  if explorer = "" then Except.ok []
  else
    match urlFormats fetch explorer o with
    | Except.error e => Except.error e
    | Except.ok (explorerUrl, effs) =>
      Except.ok (effs ++ [Effect.openExt (jsOr explorerUrl (JSVal.str explorer)).toStr])

/-! ## Dapps view composition -/

/-- The shape of the `expandedData` prop: it may carry an `originId`. -/
structure ExpandedData where
  originId : JSVal := JSVal.undef
deriving DecidableEq, Repr

/-- The three sub-views the `Dapps` component can render. -/
inductive DappsVariant where
  | originExpanded : DappsVariant
  | dappsExpanded : DappsVariant
  | dappsPreview : DappsVariant
deriving DecidableEq, Repr

/-- The props read by the render method of the `Dapps` component. -/
structure DappsProps where
  expandedData : Option ExpandedData
  expanded : JSVal
deriving DecidableEq, Repr

/-- `Dapps.render` from the source: `expandedData = this.props.expandedData
|| {}`; origin view when `expandedData.originId` is truthy, else expanded
view when `this.props.expanded` is truthy, else preview. -/
def dappsRender (props : DappsProps) : DappsVariant :=
  let expandedData := props.expandedData.getD {}
  if expandedData.originId.truthy then DappsVariant.originExpanded
  else if props.expanded.truthy then DappsVariant.dappsExpanded
  else DappsVariant.dappsPreview

/-- The security posture and blocking handlers every factory-built surface
must exhibit. -/
def lockedDown (s : BrowsingSurface) (e : NavEvent) : Prop :=
  s.webPreferences.contextIsolation = true ∧
  s.webPreferences.webviewTag = false ∧
  s.webPreferences.sandbox = true ∧
  s.webPreferences.nodeIntegration = false ∧
  (s.handlers.willNavigate e).defaultPrevented = true ∧
  (s.handlers.willAttachWebview e).defaultPrevented = true ∧
  s.handlers.windowOpenHandler () = WindowOpenAction.deny

/-- `createOverlayInstance` from the source. -/
def createOverlayInstance (url : String) (bundleLocation : String)
    (webPreferences : WebPreferencesIn) : BrowsingSurface :=
  let _ := url
  { webPreferences :=
      { contextIsolation := true
        webviewTag := false
        sandbox := true
        nodeIntegration := false
        scrollBounce := true
        backgroundThrottling := webPreferences.backgroundThrottling
        navigateOnDragDrop := false
        disableBlinkFeatures := "Auxclick"
        defaultEncoding := "utf-8"
        preload := pathResolve bundleLocation "bridge.js"
        partition := none
        extras := webPreferences.extras }
    handlers :=
      { willNavigate := fun e => { e with defaultPrevented := true }
        willAttachWebview := fun e => { e with defaultPrevented := true }
        windowOpenHandler := fun _ => WindowOpenAction.deny } }

/-! ## Helper lemmas -/

theorem urlExists_eq (fetch : Fetch) (url : String) :
    urlExists fetch url = Except.ok (urlExistsBool fetch url, urlExistsEffs fetch url) := by
  unfold urlExists urlExistsBool urlExistsEffs
  cases fetch url <;> rfl

theorem getTokenUrl_truthy (fetch : Fetch) (explorer address t : String) (ht : t ≠ "") :
    getTokenUrl fetch explorer address (JSVal.str t) =
      (let nft := explorer ++ "/nft/" ++ address ++ "/" ++ t
       let tok := explorer ++ "/token/" ++ address
       let effs := urlExistsEffs fetch nft ++ urlExistsEffs fetch tok
       if urlExistsBool fetch nft then Except.ok (nft, effs)
       else if urlExistsBool fetch tok then Except.ok (tok, effs)
       else Except.ok (explorer ++ "/address/" ++ address, effs)) := by
  unfold getTokenUrl
  simp only [JSVal.truthy, JSVal.toStr, ht, List.mapM_cons, List.mapM_nil, urlExists_eq]
  simp only [bind, Except.bind, pure, Except.pure]
  cases hb1 : urlExistsBool fetch (explorer ++ "/nft/" ++ address ++ "/" ++ t) <;>
    cases hb2 : urlExistsBool fetch (explorer ++ "/token/" ++ address) <;>
      simp [List.findIdx?, hb1, hb2, ht]

theorem getTokenUrl_falsy (fetch : Fetch) (explorer address : String) (tokenId : JSVal)
    (h : tokenId.truthy = false) :
    getTokenUrl fetch explorer address tokenId =
      Except.ok (explorer ++ "/token/" ++ address, []) := by
  unfold getTokenUrl
  simp [h]

theorem getTokenUrl_ok (fetch : Fetch) (explorer address : String) (tokenId : JSVal) :
    ∃ p, getTokenUrl fetch explorer address tokenId = Except.ok p := by
  cases htok : tokenId with
  | undef => exact ⟨_, getTokenUrl_falsy fetch explorer address JSVal.undef rfl⟩
  | str t =>
    by_cases ht : t = ""
    · subst ht
      exact ⟨_, getTokenUrl_falsy fetch explorer address (JSVal.str "") rfl⟩
    · rw [getTokenUrl_truthy fetch explorer address t ht]
      by_cases h1 : urlExistsBool fetch (explorer ++ "/nft/" ++ address ++ "/" ++ t) <;>
        by_cases h2 : urlExistsBool fetch (explorer ++ "/token/" ++ address) <;>
          simp [h1, h2]

/-! ## Claim theorems -/

/-- C1: `openExternal u` performs exactly one external-open call, on `u`
itself, precisely when `u` equals one of the thirteen allow-list entries,
or starts with an allow-list entry followed by a slash, or starts with one
of the two release-tag patterns; for every other URL it performs no effect
at all (no call, no error, no log). -/
theorem openExternal_gate (u : String) :
    (openExternal u = [Effect.openExt u] ∨ openExternal u = []) ∧
    (openExternal u = [Effect.openExt u] ↔
      ((∃ entry, entry ∈ externalWhitelist ∧
          (u = entry ∨ u.startsWith (entry ++ "/") = true)) ∨
       u.startsWith "https://github.com/floating/frame/releases/tag" = true ∨
       u.startsWith "https://github.com/frame-labs/frame-canary/releases/tag" = true)) ∧
    externalWhitelist.length = 13 := by
  have hiff : (isWhitelistedHost u || isValidReleasePage u) = true ↔
      ((∃ entry, entry ∈ externalWhitelist ∧
          (u = entry ∨ u.startsWith (entry ++ "/") = true)) ∨
       u.startsWith "https://github.com/floating/frame/releases/tag" = true ∨
       u.startsWith "https://github.com/frame-labs/frame-canary/releases/tag" = true) := by
    simp [isWhitelistedHost, isValidReleasePage, List.any_eq_true, or_assoc]
  refine ⟨?_, ?_, by rfl⟩
  · unfold openExternal
    split
    · exact Or.inl rfl
    · exact Or.inr rfl
  · rw [← hiff]
    unfold openExternal
    split <;> simp_all

/-- C2: every surface built by `createWindow`, `createViewInstance`, or
`createOverlayInstance`, under arbitrary caller-supplied web preferences,
has contextIsolation on, webviewTag off, sandbox on, nodeIntegration off,
and handlers that prevent every will-navigate event, prevent every
will-attach-webview event, and answer every window-open request with deny. -/
theorem factory_lockdown (name bundleLocation ens url : String)
    (wp1 wp2 wp3 : WebPreferencesIn) (e : NavEvent) :
    lockedDown (createWindow name bundleLocation wp1) e ∧
    lockedDown (createViewInstance ens wp2) e ∧
    lockedDown (createOverlayInstance url bundleLocation wp3) e :=
  ⟨⟨rfl, rfl, rfl, rfl, rfl, rfl, rfl⟩,
   ⟨rfl, rfl, rfl, rfl, rfl, rfl, rfl⟩,
   ⟨rfl, rfl, rfl, rfl, rfl, rfl, rfl⟩⟩

/-- C3: with a present (truthy) tokenId, `getTokenUrl` returns the NFT path
whenever its probe tested positive, the token path whenever only the token
probe tested positive, and falls back to the address path when neither
probe tested positive. -/
theorem getTokenUrl_priority (fetch : Fetch) (explorer address t : String)
    (ht : t ≠ "") :
    (urlExistsBool fetch (explorer ++ "/nft/" ++ address ++ "/" ++ t) = true →
      ∃ effs, getTokenUrl fetch explorer address (JSVal.str t) =
        Except.ok (explorer ++ "/nft/" ++ address ++ "/" ++ t, effs)) ∧
    (urlExistsBool fetch (explorer ++ "/nft/" ++ address ++ "/" ++ t) = false →
      urlExistsBool fetch (explorer ++ "/token/" ++ address) = true →
      ∃ effs, getTokenUrl fetch explorer address (JSVal.str t) =
        Except.ok (explorer ++ "/token/" ++ address, effs)) ∧
    (urlExistsBool fetch (explorer ++ "/nft/" ++ address ++ "/" ++ t) = false →
      urlExistsBool fetch (explorer ++ "/token/" ++ address) = false →
      ∃ effs, getTokenUrl fetch explorer address (JSVal.str t) =
        Except.ok (explorer ++ "/address/" ++ address, effs)) := by
  rw [getTokenUrl_truthy fetch explorer address t ht]
  constructor
  · intro h1
    refine ⟨urlExistsEffs fetch (explorer ++ "/nft/" ++ address ++ "/" ++ t) ++
            urlExistsEffs fetch (explorer ++ "/token/" ++ address), ?_⟩
    simp [h1]
  constructor
  · intro h1 h2
    refine ⟨urlExistsEffs fetch (explorer ++ "/nft/" ++ address ++ "/" ++ t) ++
            urlExistsEffs fetch (explorer ++ "/token/" ++ address), ?_⟩
    simp [h1, h2]
  · intro h1 h2
    refine ⟨urlExistsEffs fetch (explorer ++ "/nft/" ++ address ++ "/" ++ t) ++
            urlExistsEffs fetch (explorer ++ "/token/" ++ address), ?_⟩
    simp [h1, h2]

/-- A fetch oracle for which only the sample NFT path resolves. -/
def fetchNftOnly : Fetch := fun u =>
  if u = "https://ex.com/nft/0xabc/1" then Except.ok ⟨false, true⟩
  else Except.ok ⟨false, false⟩

/-- C3 witness: with the NFT probe positive and the token probe negative,
the NFT path is returned. -/
theorem getTokenUrl_priority_witness :
    ∃ effs, getTokenUrl fetchNftOnly "https://ex.com" "0xabc" (JSVal.str "1") =
      Except.ok ("https://ex.com/nft/0xabc/1", effs) :=
  (getTokenUrl_priority fetchNftOnly "https://ex.com" "0xabc" "1"
    (by decide)).1 (by decide)

/-- C4: with no tokenId, `getTokenUrl` returns the token path and performs
no effect whatsoever — in particular, no HEAD probe. -/
theorem getTokenUrl_no_tokenId (fetch : Fetch) (explorer address : String) :
    getTokenUrl fetch explorer address JSVal.undef =
      Except.ok (explorer ++ "/token/" ++ address, ([] : List Effect)) :=
  getTokenUrl_falsy fetch explorer address JSVal.undef rfl

/-- C5: `urlExists` always returns (never propagates an exception); its
verdict is true exactly when the HEAD response was non-redirected and
successful; and when the fetch rejects it returns false after logging the
error. -/
theorem urlExists_spec (fetch : Fetch) (url : String) :
    urlExists fetch url = Except.ok (urlExistsBool fetch url, urlExistsEffs fetch url) ∧
    (urlExistsBool fetch url = true ↔
      ∃ response, fetch url = Except.ok response ∧
        response.redirected = false ∧ response.ok = true) ∧
    (∀ e, fetch url = Except.error e →
      urlExists fetch url = Except.ok (false, [Effect.head url, Effect.log e])) := by
  refine ⟨urlExists_eq fetch url, ?_, ?_⟩
  · unfold urlExistsBool
    cases hf : fetch url with
    | ok response =>
      obtain ⟨red, okflag⟩ := response
      cases red <;> cases okflag <;> simp [hf]
    | error e => simp [hf]
  · intro e he
    unfold urlExists
    rw [he]

/-- C5 witness: a rejecting fetch is folded into a logged, false verdict. -/
theorem urlExists_spec_witness :
    urlExists (fun _ => Except.error "network down") "https://ex.com/token/0xabc" =
      Except.ok (false, [Effect.head "https://ex.com/token/0xabc",
                         Effect.log "network down"]) :=
  (urlExists_spec (fun _ => Except.error "network down")
    "https://ex.com/token/0xabc").2.2 "network down" rfl

/-- C6: when the configured explorer base URL is empty or absent after
normalisation, `openBlockExplorer` performs no effect at all — no external
open, no HEAD probe, no log — and raises no error. -/
theorem openBlockExplorer_no_explorer (storeNet : StoreNetworks) (fetch : Fetch)
    (o : OpenExplorer) (h : explorerBase storeNet o = "") :
    openBlockExplorer storeNet fetch o = Except.ok [] := by
  unfold openBlockExplorer
  simp [h]

/-- A configuration store with no explorer entry for any chain. -/
def emptyStore : StoreNetworks := fun _ _ => JSVal.undef

/-- A transaction request on mainnet with a hash present. -/
def sampleTxRequest : OpenExplorer :=
  { chain := { id := 1, type := "ethereum" }
    type := ExplorerType.tx
    hash := JSVal.str "0xdeadbeef"
    address := JSVal.undef
    tokenId := JSVal.undef }

/-- C6 witness: an absent explorer entry yields a silent no-op. -/
theorem openBlockExplorer_no_explorer_witness :
    openBlockExplorer emptyStore (fun _ => Except.error "down") sampleTxRequest =
      Except.ok [] :=
  openBlockExplorer_no_explorer emptyStore (fun _ => Except.error "down")
    sampleTxRequest (by decide)

/-- C7: with a configured explorer and a missing required field (a `tx`
request without a hash, or an `address` or `token` request without an
address), `openBlockExplorer` opens exactly the trailing-slash-stripped
base explorer URL. -/
theorem openBlockExplorer_missing_field (storeNet : StoreNetworks) (fetch : Fetch)
    (o : OpenExplorer) (hbase : explorerBase storeNet o ≠ "") :
    (o.type = ExplorerType.tx → o.hash.truthy = false →
      openBlockExplorer storeNet fetch o =
        Except.ok [Effect.openExt (explorerBase storeNet o)]) ∧
    (o.type = ExplorerType.address → o.address.truthy = false →
      openBlockExplorer storeNet fetch o =
        Except.ok [Effect.openExt (explorerBase storeNet o)]) ∧
    (o.type = ExplorerType.token → o.address.truthy = false →
      openBlockExplorer storeNet fetch o =
        Except.ok [Effect.openExt (explorerBase storeNet o)]) := by
  refine ⟨fun hty hh => ?_, fun hty ha => ?_, fun hty ha => ?_⟩
  · simp [openBlockExplorer, urlFormats, hbase, hty, hh, jsAnd, jsOr, JSVal.toStr]
  · simp [openBlockExplorer, urlFormats, hbase, hty, ha, jsAnd, jsOr, JSVal.toStr]
  · simp [openBlockExplorer, urlFormats, hbase, hty, ha, jsAnd, jsOr, JSVal.toStr]

/-- A configuration store whose explorer entry carries a trailing slash. -/
def slashStore : StoreNetworks := fun _ _ => JSVal.str "https://ex.com/"

/-- A transaction request on mainnet without a hash. -/
def txNoHashRequest : OpenExplorer :=
  { chain := { id := 1, type := "ethereum" }
    type := ExplorerType.tx
    hash := JSVal.undef
    address := JSVal.undef
    tokenId := JSVal.undef }

/-- C7 witness: a hashless `tx` request opens the stripped base URL. -/
theorem openBlockExplorer_missing_field_witness :
    explorerBase slashStore txNoHashRequest = "https://ex.com" ∧
    openBlockExplorer slashStore (fun _ => Except.error "down") txNoHashRequest =
      Except.ok [Effect.openExt (explorerBase slashStore txNoHashRequest)] :=
  ⟨by decide,
   (openBlockExplorer_missing_field slashStore (fun _ => Except.error "down")
     txNoHashRequest (by decide)).1 rfl rfl⟩

/-- C8: `openBlockExplorer` always returns (no exception reaches the caller,
whatever the store, the network, and the request), and `openExternal` always
returns, either performing the single gated call or nothing. -/
theorem shell_routines_never_throw (storeNet : StoreNetworks) (fetch : Fetch)
    (o : OpenExplorer) (u : String) :
    (∃ effs, openBlockExplorer storeNet fetch o = Except.ok effs) ∧
    (openExternal u = [Effect.openExt u] ∨ openExternal u = []) := by
  constructor
  · by_cases hbase : explorerBase storeNet o = ""
    · exact ⟨[], by unfold openBlockExplorer; simp [hbase]⟩
    · have hfmt : ∃ v, urlFormats fetch (explorerBase storeNet o) o = Except.ok v := by
        cases hty : o.type with
        | tx =>
          exact ⟨(jsAnd o.hash (JSVal.str (explorerBase storeNet o ++ "/tx/" ++
            o.hash.toStr)), []), by simp [urlFormats, hty]⟩
        | address =>
          exact ⟨(jsAnd o.address (JSVal.str (explorerBase storeNet o ++ "/address/" ++
            o.address.toStr)), []), by simp [urlFormats, hty]⟩
        | token =>
          by_cases ha : o.address.truthy
          · obtain ⟨⟨ustr, effs⟩, hg⟩ :=
              getTokenUrl_ok fetch (explorerBase storeNet o) o.address.toStr o.tokenId
            exact ⟨(JSVal.str ustr, effs), by simp [urlFormats, hty, ha, hg]⟩
          · exact ⟨(o.address, []), by simp [urlFormats, hty, ha]⟩
      obtain ⟨⟨u', effs⟩, hu⟩ := hfmt
      exact ⟨effs ++ [Effect.openExt (jsOr u' (JSVal.str (explorerBase storeNet o))).toStr],
        by unfold openBlockExplorer; simp [hbase, hu]⟩
  · unfold openExternal
    split
    · exact Or.inl rfl
    · exact Or.inr rfl

/-- C9: the Dapps component renders the origin variant exactly when the
(defaulted) expandedData carries a truthy originId; otherwise the expanded
variant exactly when the expanded prop is truthy, and the preview variant
otherwise — in particular, with no props set at all it renders the
preview. -/
theorem dappsRender_spec (props : DappsProps) :
    (dappsRender props = DappsVariant.originExpanded ↔
      (props.expandedData.getD {}).originId.truthy = true) ∧
    ((props.expandedData.getD {}).originId.truthy = false →
      ((dappsRender props = DappsVariant.dappsExpanded ↔
          props.expanded.truthy = true) ∧
       (dappsRender props = DappsVariant.dappsPreview ↔
          props.expanded.truthy = false))) ∧
    dappsRender { expandedData := none, expanded := JSVal.undef } =
      DappsVariant.dappsPreview := by
  refine ⟨?_, ?_, rfl⟩
  · unfold dappsRender
    by_cases h : (props.expandedData.getD {}).originId.truthy <;>
      by_cases h2 : props.expanded.truthy <;> simp [h, h2]
  · intro h
    unfold dappsRender
    by_cases h2 : props.expanded.truthy <;> simp [h, h2]

/-- C9 witness: a truthy originId selects the origin variant, and an
expanded flag without an originId selects the expanded variant. -/
theorem dappsRender_spec_witness :
    dappsRender { expandedData := some { originId := JSVal.str "someOrigin" },
                  expanded := JSVal.undef } = DappsVariant.originExpanded ∧
    dappsRender { expandedData := none, expanded := JSVal.str "yes" } =
      DappsVariant.dappsExpanded :=
  ⟨(dappsRender_spec _).1.mpr (by decide),
   ((dappsRender_spec _).2.1 (by decide)).1.mpr (by decide)⟩

/-- C10: whatever the probe outcomes, `getTokenUrl` returns without error a
non-empty URL of exactly one of the three shapes rooted at the given
explorer base: the token path, the address path, or — only when a tokenId
string was supplied — the NFT path. -/
theorem getTokenUrl_shape (fetch : Fetch) (explorer address : String)
    (tokenId : JSVal) :
    ∃ r effs, getTokenUrl fetch explorer address tokenId = Except.ok (r, effs) ∧
      r ≠ "" ∧
      (r = explorer ++ "/token/" ++ address ∨
       r = explorer ++ "/address/" ++ address ∨
       ∃ t, tokenId = JSVal.str t ∧
         r = explorer ++ "/nft/" ++ address ++ "/" ++ t) := by
  have htok : ∀ a b : String, a ++ "/token/" ++ b ≠ "" := by
    intro a b h
    have h2 := congrArg String.length h
    simp [String.length_append] at h2
    exact absurd h2.1.2 (by decide)
  have haddr : ∀ a b : String, a ++ "/address/" ++ b ≠ "" := by
    intro a b h
    have h2 := congrArg String.length h
    simp [String.length_append] at h2
    exact absurd h2.1.2 (by decide)
  have hnft : ∀ a b t : String, a ++ "/nft/" ++ b ++ "/" ++ t ≠ "" := by
    intro a b t h
    have h2 := congrArg String.length h
    simp [String.length_append] at h2
    exact absurd h2.1.1.1.2 (by decide)
  by_cases htr : tokenId.truthy
  · obtain ⟨t, rfl⟩ : ∃ t, tokenId = JSVal.str t := by
      cases tokenId with
      | undef => exact absurd htr (by decide)
      | str t => exact ⟨t, rfl⟩
    have ht : t ≠ "" := by
      intro h0
      rw [h0] at htr
      exact absurd htr (by decide)
    rw [getTokenUrl_truthy fetch explorer address t ht]
    by_cases h1 : urlExistsBool fetch (explorer ++ "/nft/" ++ address ++ "/" ++ t) <;>
      by_cases h2 : urlExistsBool fetch (explorer ++ "/token/" ++ address)
    · exact ⟨explorer ++ "/nft/" ++ address ++ "/" ++ t,
        urlExistsEffs fetch (explorer ++ "/nft/" ++ address ++ "/" ++ t) ++
          urlExistsEffs fetch (explorer ++ "/token/" ++ address),
        by simp [h1], hnft explorer address t, Or.inr (Or.inr ⟨t, rfl, rfl⟩)⟩
    · exact ⟨explorer ++ "/nft/" ++ address ++ "/" ++ t,
        urlExistsEffs fetch (explorer ++ "/nft/" ++ address ++ "/" ++ t) ++
          urlExistsEffs fetch (explorer ++ "/token/" ++ address),
        by simp [h1], hnft explorer address t, Or.inr (Or.inr ⟨t, rfl, rfl⟩)⟩
    · exact ⟨explorer ++ "/token/" ++ address,
        urlExistsEffs fetch (explorer ++ "/nft/" ++ address ++ "/" ++ t) ++
          urlExistsEffs fetch (explorer ++ "/token/" ++ address),
        by simp [h1, h2], htok explorer address, Or.inl rfl⟩
    · exact ⟨explorer ++ "/address/" ++ address,
        urlExistsEffs fetch (explorer ++ "/nft/" ++ address ++ "/" ++ t) ++
          urlExistsEffs fetch (explorer ++ "/token/" ++ address),
        by simp [h1, h2], haddr explorer address, Or.inr (Or.inl rfl)⟩
  · have hfalse : tokenId.truthy = false := by
      cases h : tokenId.truthy
      · rfl
      · exact absurd h htr
    exact ⟨_, _, getTokenUrl_falsy fetch explorer address tokenId hfalse,
      htok explorer address, Or.inl rfl⟩
